import Mathlib

/-!
# Verification of `@aoitelegram/database`

A shallow embedding of the storage backends (`StorageDB`, `MySqlDB`,
`FirebaseDB`, `MongoDB`), the shared event plumbing (`ManagerEvents`),
and the `TimeoutManager`, translated from the TypeScript sources, with
theorems settling the frozen claims about the natural-language spec.

Conventions of the embedding:
* JavaScript structured values are modelled by the inductive `Val`
  (null / number / string / boolean / object), with `vnum` an
  integer-valued JS number.  `deepEqualTry` from `src/utils.ts` wraps
  Node's loose `assert.deepEqual` in a try/catch; `deepEqualVal` models
  it faithfully: Abstract Equality `==` on primitives (`1 == "1"` via
  an exact-rational `ToNumber` over the ES string-numeric grammar,
  booleans through `ToNumber`, `null` loose-equal only to itself) and
  order-insensitive recursive comparison of objects.  Out of model:
  IEEE754 rounding/underflow of extreme numeric literals (more than
  about 17 significant digits or exponents beyond ±308), and the
  `JSON.stringify`/`JSON.parse` round-trip `MySqlDB` performs on
  values.
* A table's contents are an association list `List (String × Val)`;
  JavaScript objects preserve insertion order and `data[key] = v`
  overwrites in place, which `aset` reproduces.
* Async methods are sequentialised: each `await`ed call completes before
  the next statement, which matches Node's single-threaded execution of
  a single caller's sequence of operations.  Where the code does *not*
  await (the `forEach(async ...)` in every backend's `ping`) the model
  keeps the started reads as pending work instead, see `storagePing`.
* Fallible methods return `Except DBErr`; `.typeError` stands for the
  uncaught JavaScript `TypeError` raised by property access on
  `undefined`.
* `set`/`delete`/`clear` return, beside the new state, the trace of
  emitted events, each paired with the snapshot of the store state at
  the moment `emit` ran — that is what a synchronous listener observes.
-/

set_option autoImplicit false

namespace AoiDB

/-- JavaScript structured data, as stored by the backends.  An object
literal is a cons chain of fields ending in `vobjEmpty`, so the type
stays non-nested: `\x7bx:1\x7d` is `vobjCons "x" (vnum 1) vobjEmpty`. -/
inductive Val where
  | vnull : Val
  | vnum : Int → Val
  | vstr : String → Val
  | vbool : Bool → Val
  | vobjEmpty : Val
  | vobjCons : String → Val → Val → Val
deriving Repr, BEq, DecidableEq

/-- Whitespace and line terminators that `ToNumber` strips from a
string (ES `StrWhiteSpace`). -/
def isJsSpace (c : Char) : Bool :=
  c.val = 0x9 || c.val = 0xA || c.val = 0xB || c.val = 0xC ||
  c.val = 0xD || c.val = 0x20 || c.val = 0xA0 || c.val = 0x1680 ||
  (0x2000 ≤ c.val && c.val ≤ 0x200A) || c.val = 0x2028 ||
  c.val = 0x2029 || c.val = 0x202F || c.val = 0x205F ||
  c.val = 0x3000 || c.val = 0xFEFF

/-- Hexadecimal digit test. -/
def isHexDigitCh (c : Char) : Bool :=
  c.isDigit || ('a' ≤ c && c ≤ 'f') || ('A' ≤ c && c ≤ 'F')

/-- Octal digit test. -/
def isOctDigitCh (c : Char) : Bool :=
  '0' ≤ c && c ≤ '7'

/-- Binary digit test. -/
def isBinDigitCh (c : Char) : Bool :=
  c = '0' || c = '1'

/-- Numeric value of a digit character (decimal or hex, either case). -/
def digitVal (c : Char) : Nat :=
  if c.isDigit then c.toNat - 48
  else if 'a' ≤ c && c ≤ 'f' then c.toNat - 87
  else c.toNat - 55

/-- Value of a digit string in the given base. -/
def digitsVal (base : Nat) (ds : List Char) : Nat :=
  ds.foldl (fun n c => base * n + digitVal c) 0

/-- Result of `ToNumber` on a string: the exact value `m·10^e` of the
numeric literal, or an infinity; `none` is NaN.  IEEE754 rounding of
the literal to a double (observable only for literals of more than
about 17 significant digits, or with exponents beyond ±308) is below
the granularity of this model, as `vnum` already models integer-valued
JS numbers exactly. -/
inductive JsNum where
  | finite : Int → Int → JsNum
  | infinite : JsNum
deriving Repr, DecidableEq

/-- ES `StrUnsignedDecimalLiteral`: `Infinity`, or decimal digits with
optional fraction and exponent (`1`, `1.`, `.5`, `1.25e-2`, ...). -/
def parseUnsignedDecimal (cs : List Char) : Option JsNum :=
  if cs = "Infinity".data then
    some JsNum.infinite
  else
    let ip := cs.takeWhile Char.isDigit
    let r1 := cs.dropWhile Char.isDigit
    let hasDot := match r1 with | '.' :: _ => true | _ => false
    let afterDot := match r1 with | '.' :: rest => rest | _ => r1
    let fp := if hasDot then afterDot.takeWhile Char.isDigit else []
    let r2 := if hasDot then afterDot.dropWhile Char.isDigit else r1
    if ip = [] && fp = [] then none
    else
      let m : Int := Int.ofNat (digitsVal 10 (ip ++ fp))
      let fe : Int := Int.ofNat fp.length
      match r2 with
      | [] => some (JsNum.finite m (-fe))
      | c :: rest =>
          if c = 'e' || c = 'E' then
            let esign : Int :=
              match rest with | '-' :: _ => -1 | _ => 1
            let eds :=
              match rest with
              | '+' :: ds => ds
              | '-' :: ds => ds
              | ds => ds
            if eds ≠ [] && eds.all Char.isDigit then
              some (JsNum.finite m
                (esign * Int.ofNat (digitsVal 10 eds) - fe))
            else none
          else none

/-- ES `ToNumber` applied to a string (`StringNumericLiteral`): trim
whitespace, an empty remainder is `0`, a `0x`/`0o`/`0b` literal is the
unsigned non-decimal integer, otherwise an optionally signed decimal
literal; anything else is NaN (`none`). -/
def parseStrNumber (s : String) : Option JsNum :=
  let cs :=
    ((s.data.dropWhile isJsSpace).reverse.dropWhile isJsSpace).reverse
  match cs with
  | [] => some (JsNum.finite 0 0)
  | '0' :: x :: rest =>
      if (x = 'x' || x = 'X') && rest ≠ [] && rest.all isHexDigitCh then
        some (JsNum.finite (Int.ofNat (digitsVal 16 rest)) 0)
      else if (x = 'o' || x = 'O') && rest ≠ [] && rest.all isOctDigitCh then
        some (JsNum.finite (Int.ofNat (digitsVal 8 rest)) 0)
      else if (x = 'b' || x = 'B') && rest ≠ [] && rest.all isBinDigitCh then
        some (JsNum.finite (Int.ofNat (digitsVal 2 rest)) 0)
      else
        match cs with
        | '+' :: more => parseUnsignedDecimal more
        | '-' :: more =>
            (parseUnsignedDecimal more).map
              (fun j => match j with
                | JsNum.finite m e => JsNum.finite (-m) e
                | JsNum.infinite => JsNum.infinite)
        | more => parseUnsignedDecimal more
  | '+' :: more => parseUnsignedDecimal more
  | '-' :: more =>
      (parseUnsignedDecimal more).map
        (fun j => match j with
          | JsNum.finite m e => JsNum.finite (-m) e
          | JsNum.infinite => JsNum.infinite)
  | more => parseUnsignedDecimal more

/-- Exact comparison of a `ToNumber` result with the integer `n`. -/
def jsNumEqInt (j : JsNum) (n : Int) : Bool :=
  match j with
  | JsNum.infinite => false
  | JsNum.finite m e =>
      if 0 ≤ e then m * (10 : Int) ^ e.toNat = n
      else m = n * (10 : Int) ^ (-e).toNat

/-- JS loose equality `s == n` between a string and a number:
`ToNumber(s) == n`. -/
def strEqNum (s : String) (n : Int) : Bool :=
  match parseStrNumber s with
  | some j => jsNumEqInt j n
  | none => false

/-- `ToNumber` of a boolean. -/
def boolToInt (b : Bool) : Int :=
  if b then 1 else 0

/-- JS Abstract Equality `==` on the primitive values of `Val` (both
arguments non-objects): same-type values compare directly, `null` is
loosely equal only to itself (and to `undefined`, which the model does
not store), numbers and strings compare through `ToNumber`, and a
boolean is converted with `ToNumber` first. -/
def primLooseEq : Val → Val → Bool
  | Val.vnull, Val.vnull => true
  | Val.vnum a, Val.vnum b => a = b
  | Val.vstr a, Val.vstr b => a = b
  | Val.vbool a, Val.vbool b => a = b
  | Val.vnum a, Val.vstr s => strEqNum s a
  | Val.vstr s, Val.vnum a => strEqNum s a
  | Val.vbool b, Val.vnum a => boolToInt b = a
  | Val.vnum a, Val.vbool b => boolToInt b = a
  | Val.vbool b, Val.vstr s => strEqNum s (boolToInt b)
  | Val.vstr s, Val.vbool b => strEqNum s (boolToInt b)
  | _, _ => false

/-- Object test (`typeof x === "object" && x !== null`, for the
representable values). -/
def isObj : Val → Bool
  | Val.vobjEmpty => true
  | Val.vobjCons _ _ _ => true
  | _ => false

/-- First field named `k` of an object chain. -/
def lookupField : Val → String → Option Val
  | Val.vobjCons k' v rest, k =>
      if k' = k then some v else lookupField rest k
  | _, _ => none

/-- Number of fields of an object chain (`Object.keys(x).length` for
the duplicate-free chains JS objects produce). -/
def fieldCount : Val → Nat
  | Val.vobjCons _ _ rest => fieldCount rest + 1
  | _ => 0

mutual

/-- Model of Node's loose `assert.deepEqual` on `Val`: primitives
compare with Abstract Equality `==` (so `deepEqual(1, "1")` passes), an
object never equals a primitive, and two objects are equal when they
have the same number of fields and every field of the first is present
in the second with a loosely-deep-equal value — key order is
irrelevant.  Chains are duplicate-free as produced by JS objects. -/
def deepEqualVal : Val → Val → Bool
  | Val.vobjEmpty, b => isObj b && fieldCount b = 0
  | Val.vobjCons k v rest, b =>
      isObj b && (fieldCount (Val.vobjCons k v rest) = fieldCount b : Bool) &&
      (match lookupField b k with
       | some w => deepEqualVal v w && subsetMatch rest b
       | none => false)
  | a, b => if isObj b then false else primLooseEq a b

/-- Every field of the object chain `a` exists in `b` with a
loosely-deep-equal value. -/
def subsetMatch : Val → Val → Bool
  | Val.vobjCons k v rest, b =>
      (match lookupField b k with
       | some w => deepEqualVal v w && subsetMatch rest b
       | none => false)
  | _, _ => true

end

/-- Model of `deepEqualTry` from `src/utils.ts`: Node's legacy (loose)
`assert.deepEqual` wrapped in try/catch, `true` on success and `false`
on mismatch. -/
def deepEqualTry (actual expected : Val) : Bool :=
  deepEqualVal actual expected

/-- First value bound to `k` in an association list (JS `data[key]`,
or the first matching row of a SQL `SELECT`). -/
def alookup {α : Type} : List (String × α) → String → Option α
  | [], _ => none
  | (k', v) :: rest, k => if k' = k then some v else alookup rest k

/-- Assignment `data[key] = v` on a JS object: overwrite in place, append if absent. -/
def aset {α : Type} (l : List (String × α)) (k : String) (v : α) :
    List (String × α) :=
  match l with
  | [] => [(k, v)]
  | (k', v') :: rest =>
      if k' = k then (k, v) :: rest else (k', v') :: aset rest k v

/-- Removal `delete data[key]` / `Map.delete`: drop every binding of `k`. -/
def aerase {α : Type} : List (String × α) → String → List (String × α)
  | [], _ => []
  | (k', v) :: rest, k =>
      if k' = k then aerase rest k else (k', v) :: aerase rest k

/-- A change event as emitted by the backends.  `del` carries the value
that existed before removal (`none` when the backend passes through an
`undefined` read); `deleteAll` carries the snapshot of removed records
when the backend includes a `variables` field in the payload, `none`
when the payload is only `{table}` (as in `MySqlDB.clear`). -/
inductive DBEvent where
  | create : String → String → Val → DBEvent
  | update : String → String → Val → Val → DBEvent
  | del : String → String → Option Val → DBEvent
  | deleteAll : String → Option (List (String × Val)) → DBEvent
deriving Repr, DecidableEq

/-- Errors raised synchronously by backend methods. -/
inductive DBErr where
  /-- operation before `connect` completed -/
  | notReady : DBErr
  /-- the table name is not in the declared table list -/
  | unknownTable : String → DBErr
  /-- JS `TypeError` from property access on `undefined` -/
  | typeError : DBErr
deriving Repr, DecidableEq

/-! ## `StorageDB` (src/src/classes/StorageDB.ts)

State: the declared table list, the `#isReady` flag, and the per-table
file contents.  The JSON file of table `t` holds an object mapping each
key to the record `{key, value}`; the record's `key` field always equals
its position's key, so the model keeps only the value. -/

structure SDB where
  tables : List String
  isReady : Bool
  data : List (String × List (String × Val))
deriving Repr, DecidableEq

namespace SDB

/-- Model of `StorageDB.getData`: throws before `connect`, throws on an
undeclared table, otherwise parses the table's file (a missing or
unreadable file is caught and yields `{}`). -/
def getData (s : SDB) (t : String) : Except DBErr (List (String × Val)) :=
  if !s.isReady then .error .notReady
  else if !s.tables.contains t then .error (.unknownTable t)
  else .ok ((alookup s.data t).getD [])

/-- Model of `StorageDB.setData`: re-checks the table is declared, then writes
the file. -/
def setData (s : SDB) (t : String) (d : List (String × Val)) :
    Except DBErr SDB :=
  if !s.tables.contains t then .error (.unknownTable t)
  else .ok { s with data := aset s.data t d }

/-- Model of `StorageDB.get`: `data[key]?.["value"]`. -/
def get (s : SDB) (t k : String) : Except DBErr (Option Val) := do
  let d ← s.getData t
  return alookup d k

/-- Model of `StorageDB.has`: `typeof data[key] === "object"`. -/
def hasKey (s : SDB) (t k : String) : Except DBErr Bool := do
  let d ← s.getData t
  return (alookup d k).isSome

/-- Model of `StorageDB.all`: the mapping key → value. -/
def all (s : SDB) (t : String) : Except DBErr (List (String × Val)) :=
  s.getData t

/-- Model of `StorageDB.set`: read the table, emit `create` when the key is
absent, emit `update` when present with a not-deep-equal value, emit
nothing when deep-equal; only then assign `data[key]` and write the
file.  Each event is paired with the state at emission time. -/
def set (s : SDB) (t k : String) (v : Val) :
    Except DBErr (SDB × List (DBEvent × SDB)) := do
  let d ← s.getData t
  let evs :=
    match alookup d k with
    | none => [(DBEvent.create t k v, s)]
    | some old =>
        if deepEqualTry v old then [] else [(DBEvent.update t k v old, s)]
  let s' ← s.setData t (aset d k v)
  return (s', evs)

/-- Model of `StorageDB.delete` with a single (non-array) key: the event payload
reads `data[key].value` *before* checking presence, so an absent key
raises a `TypeError`; on a present key the `delete` event (with the old
value) is emitted first, then the key is removed and the file written. -/
def deleteOne (s : SDB) (t k : String) :
    Except DBErr (SDB × List (DBEvent × SDB)) := do
  let d ← s.getData t
  match alookup d k with
  | none => .error .typeError
  | some old => do
      let s' ← s.setData t (aerase d k)
      return (s', [(DBEvent.del t k (some old), s)])

/-- Model of `StorageDB.clear`: snapshot `all(table)`, write `{}`, then emit one
`deleteAll` carrying the snapshot in its `variables` field. -/
def clear (s : SDB) (t : String) :
    Except DBErr (SDB × List (DBEvent × SDB)) := do
  let keys ← s.all t
  let s' ← s.setData t []
  return (s', [(DBEvent.deleteAll t (some keys), s')])

/-- Model of `StorageDB.ping`: samples `Date.now()`, runs
`tables.forEach(async (table) => await this.all(table))`, and samples
`Date.now()` again.  `forEach` ignores the promises the async callbacks
return, so no `await` separates the two samples: the reads are merely
started, and each completes only after `ping` has returned.  The model
clock advances only across awaited suspensions, so the elapsed value is
`0`; the second component lists the reads still pending when `ping`
returns, with the duration each will take (`readMs`).  Errors thrown
inside the async callbacks become unhandled rejections, never a
synchronous throw, so `ping` is total. -/
def storagePing (s : SDB) (readMs : String → Nat) :
    Nat × List (String × Nat) :=
  (0, s.tables.map (fun t => (t, readMs t)))

end SDB

/-! ## `MySqlDB` (src/src/classes/MySqlDB.ts)

State: declared tables, `#isReady`, and the rows of each SQL table in
insertion order.  `connect` creates each table as
`(key TEXT, value TEXT)` with no primary or unique key, so the
`INSERT ... ON DUPLICATE KEY UPDATE` in `set` can never take its update
branch: every `set` inserts a fresh row, and a key may occur in several
rows.  `get` returns the *first* matching row (`rows[0]` of the
`SELECT`), `all` folds over all rows so a later duplicate overwrites an
earlier one, and `DELETE ... WHERE key = ?` removes every matching
row. -/

structure MDB where
  tables : List String
  isReady : Bool
  rows : List (String × List (String × Val))
deriving Repr, DecidableEq

namespace MDB

/-- Model of `MySqlDB.hasTable`: throws before `connect` and on an undeclared
table name. -/
def checkTable (s : MDB) (t : String) : Except DBErr Unit :=
  if !s.isReady then .error .notReady
  else if !s.tables.contains t then .error (.unknownTable t)
  else .ok ()

/-- The rows of table `t`. -/
def tableRows (s : MDB) (t : String) : List (String × Val) :=
  (alookup s.rows t).getD []

/-- Model of `MySqlDB.get`: `SELECT value FROM t WHERE key = ?`, first row or
`undefined`. -/
def get (s : MDB) (t k : String) : Except DBErr (Option Val) := do
  let _ ← s.checkTable t
  return alookup (s.tableRows t) k

/-- Model of `MySqlDB.has`: `SELECT 1 ... ` row count positive. -/
def hasKey (s : MDB) (t k : String) : Except DBErr Bool := do
  let _ ← s.checkTable t
  return (alookup (s.tableRows t) k).isSome

/-- Model of `MySqlDB.all`: fold the rows into a key → value object; a later
duplicate row overwrites an earlier one. -/
def all (s : MDB) (t : String) : Except DBErr (List (String × Val)) := do
  let _ ← s.checkTable t
  return (s.tableRows t).foldl (fun acc p => aset acc p.1 p.2) []

/-- Model of `MySqlDB.set`: read the old value, emit `create` when absent /
`update` when present and not deep-equal / nothing when deep-equal,
then run the `INSERT`, which appends a row (the `ON DUPLICATE KEY`
clause is dead because the table has no unique key).  Events are paired
with the state at emission time. -/
def set (s : MDB) (t k : String) (v : Val) :
    Except DBErr (MDB × List (DBEvent × MDB)) := do
  let oldData ← s.get t k
  let evs :=
    match oldData with
    | none => [(DBEvent.create t k v, s)]
    | some old =>
        if deepEqualTry v old then [] else [(DBEvent.update t k v old, s)]
  let s' := { s with rows := aset s.rows t (s.tableRows t ++ [(k, v)]) }
  return (s', evs)

/-- Model of `MySqlDB.delete` with a single key: read the old value (an absent
key reads `undefined` and raises nothing), run the `DELETE`, then emit
one `delete` event carrying the old value. -/
def deleteOne (s : MDB) (t k : String) :
    Except DBErr (MDB × List (DBEvent × MDB)) := do
  let _ ← s.checkTable t
  let oldData ← s.get t k
  let s' := { s with rows := aset s.rows t (aerase (s.tableRows t) k) }
  return (s', [(DBEvent.del t k oldData, s')])

/-- Model of `MySqlDB.clear`: `DELETE FROM t`, then emit one `deleteAll` whose
payload is only `\x7btable\x7d` — no snapshot of the removed records. -/
def clear (s : MDB) (t : String) :
    Except DBErr (MDB × List (DBEvent × MDB)) := do
  let _ ← s.checkTable t
  let s' := { s with rows := aset s.rows t [] }
  return (s', [(DBEvent.deleteAll t none, s')])

/-- Model of `MySqlDB.ping`: same `forEach(async ...)` shape as
`StorageDB.ping`; the two `Date.now()` samples bracket no await, the
table reads are pending when `ping` returns. -/
def ping (s : MDB) (readMs : String → Nat) : Nat × List (String × Nat) :=
  (0, s.tables.map (fun t => (t, readMs t)))

end MDB

/-! ## `FirebaseDB` (src/unnamed/part_004, first class)

State: declared tables, `#isReady`, and the Firestore documents.  The
document at path `t/k` is written by `setDoc` as `\x7b[k]: v\x7d`, and
`all` reassembles the key → value mapping from those documents, so a
table is again an association map. -/

structure FDB where
  tables : List String
  isReady : Bool
  docs : List (String × List (String × Val))
deriving Repr, DecidableEq

namespace FDB

/-- Model of `FirebaseDB.hasTable`. -/
def checkTable (s : FDB) (t : String) : Except DBErr Unit :=
  if !s.isReady then .error .notReady
  else if !s.tables.contains t then .error (.unknownTable t)
  else .ok ()

/-- The documents of table `t`, as the key → value mapping `all`
rebuilds. -/
def tableDocs (s : FDB) (t : String) : List (String × Val) :=
  (alookup s.docs t).getD []

/-- Model of `FirebaseDB.all`. -/
def all (s : FDB) (t : String) : Except DBErr (List (String × Val)) := do
  let _ ← s.checkTable t
  return s.tableDocs t

/-- Model of `FirebaseDB.get`: `all(table)[key]`. -/
def get (s : FDB) (t k : String) : Except DBErr (Option Val) := do
  let _ ← s.checkTable t
  return alookup (s.tableDocs t) k

/-- Model of `FirebaseDB.has`: membership in `Object.entries(all(table))`. -/
def hasKey (s : FDB) (t k : String) : Except DBErr Bool := do
  let _ ← s.checkTable t
  return (alookup (s.tableDocs t) k).isSome

/-- Model of `FirebaseDB.set`: read `oldData` with `get`, test presence with
`has`, emit `create` / `update` / nothing, then `setDoc` the document.
Events are paired with the state at emission time. -/
def set (s : FDB) (t k : String) (v : Val) :
    Except DBErr (FDB × List (DBEvent × FDB)) := do
  let oldData ← s.get t k
  let present ← s.hasKey t k
  let evs :=
    if !present then [(DBEvent.create t k v, s)]
    else
      match oldData with
      | some old =>
          if deepEqualTry v old then [] else [(DBEvent.update t k v old, s)]
      | none => []
  let s' := { s with docs := aset s.docs t (aset (s.tableDocs t) k v) }
  return (s', evs)

/-- Model of `FirebaseDB.clear`: snapshot `all(table)`, `deleteDoc` each
document, then emit one `deleteAll` carrying the snapshot in
`variables`. -/
def clear (s : FDB) (t : String) :
    Except DBErr (FDB × List (DBEvent × FDB)) := do
  let keys ← s.all t
  let s' := { s with docs := aset s.docs t [] }
  return (s', [(DBEvent.deleteAll t (some keys), s')])

end FDB

/-! ## `MongoDB` (src/unnamed/part_004, second class)

State: declared tables, `#isReady`, and the documents.  Table `t` is a
Mongo database; key `k` is the collection named `k` inside it, holding
at most the one document `\x7b_k: k, _v: v\x7d` maintained by the
`updateOne ... upsert` in `set`.  So a table is once more an
association map from key to value; `countDocuments() > 0` is exactly
presence of the key. -/

structure MoDB where
  tables : List String
  isReady : Bool
  docs : List (String × List (String × Val))
deriving Repr, DecidableEq

namespace MoDB

/-- Model of `MongoDB.hasTable`. -/
def checkTable (s : MoDB) (t : String) : Except DBErr Unit :=
  if !s.isReady then .error .notReady
  else if !s.tables.contains t then .error (.unknownTable t)
  else .ok ()

/-- The key → value mapping held by table `t`. -/
def tableDocs (s : MoDB) (t : String) : List (String × Val) :=
  (alookup s.docs t).getD []

/-- Model of `MongoDB.get`: `findOne(\x7b_k: key\x7d)?._v`. -/
def get (s : MoDB) (t k : String) : Except DBErr (Option Val) := do
  let _ ← s.checkTable t
  return alookup (s.tableDocs t) k

/-- Model of `MongoDB.all` (key → value mapping over all collections). -/
def all (s : MoDB) (t : String) : Except DBErr (List (String × Val)) := do
  let _ ← s.checkTable t
  return s.tableDocs t

/-- Model of `MongoDB.set`: read `oldData`, emit `create` when the key's
collection has no document, `update` when present and not deep-equal,
nothing when deep-equal, then `updateOne` with upsert.  Events are
paired with the state at emission time. -/
def set (s : MoDB) (t k : String) (v : Val) :
    Except DBErr (MoDB × List (DBEvent × MoDB)) := do
  let oldData ← s.get t k
  let evs :=
    match oldData with
    | none => [(DBEvent.create t k v, s)]
    | some old =>
        if deepEqualTry v old then [] else [(DBEvent.update t k v old, s)]
  let s' := { s with docs := aset s.docs t (aset (s.tableDocs t) k v) }
  return (s', evs)

/-- Model of `MongoDB.clear`: snapshot `all(table)`, `deleteOne` per key, then
emit one `deleteAll` carrying the snapshot in `variables`. -/
def clear (s : MoDB) (t : String) :
    Except DBErr (MoDB × List (DBEvent × MoDB)) := do
  let keys ← s.all t
  let s' := { s with docs := aset s.docs t [] }
  return (s', [(DBEvent.deleteAll t (some keys), s')])

end MoDB

instance {ε α : Type} [DecidableEq ε] [DecidableEq α] :
    DecidableEq (Except ε α) := fun a b =>
  match a, b with
  | .ok x, .ok y =>
      if h : x = y then isTrue (by rw [h])
      else isFalse (fun c => h (Except.ok.inj c))
  | .error x, .error y =>
      if h : x = y then isTrue (by rw [h])
      else isFalse (fun c => h (Except.error.inj c))
  | .ok _, .error _ => isFalse (fun c => Except.noConfusion c)
  | .error _, .ok _ => isFalse (fun c => Except.noConfusion c)

/-- The events of a `set`/`delete`/`clear` result, in emission order
(`none` when the call threw). -/
def eventsOf {σ : Type} (r : Except DBErr (σ × List (DBEvent × σ))) :
    Option (List DBEvent) :=
  match r with
  | .ok (_, tr) => some (tr.map Prod.fst)
  | .error _ => none

/-- The state a `set`/`delete`/`clear` result leaves behind. -/
def stateOf {σ : Type} (r : Except DBErr (σ × List (DBEvent × σ))) :
    Option σ :=
  match r with
  | .ok (s, _) => some s
  | .error _ => none

/-- The store snapshots a synchronous listener observes, one per
emitted event, in emission order. -/
def snapshotsOf {σ : Type} (r : Except DBErr (σ × List (DBEvent × σ))) :
    Option (List σ) :=
  match r with
  | .ok (_, tr) => some (tr.map Prod.snd)
  | .error _ => none

/-! ## `ManagerEvents` (src/src/classes/AoiManager.ts, lines 384-490)

The class extends Node's `EventEmitter`.  A listener registration is
`(eventName, listenerId, isOnce)`; listeners are invoked in
registration order and `once` registrations are removed by `emit`.
`AoiManager.on/once/off` delegate directly to these methods. -/

structure Emitter where
  listeners : List (String × Nat × Bool)
deriving Repr, DecidableEq

namespace Emitter

/-- Node `EventEmitter.prototype.on`: append a persistent listener. -/
def addPersistent (s : Emitter) (e : String) (l : Nat) : Emitter :=
  { listeners := s.listeners ++ [(e, l, false)] }

/-- Node `EventEmitter.prototype.once`: append a one-shot listener. -/
def addOnce (s : Emitter) (e : String) (l : Nat) : Emitter :=
  { listeners := s.listeners ++ [(e, l, true)] }

/-- Node `EventEmitter.prototype.emit`: invoke every listener
registered for `e` in order, then drop the one-shot ones among them. -/
def emit (s : Emitter) (e : String) : List Nat × Emitter :=
  (s.listeners.filterMap (fun p => if p.1 = e then some p.2.1 else none),
   { listeners := s.listeners.filter (fun p => !(p.1 = e && p.2.2)) })

end Emitter

/-- Model of `ManagerEvents.on`: `super.on(eventName, listener)`. -/
def managerOn (s : Emitter) (e : String) (l : Nat) : Emitter :=
  s.addPersistent e l

/-- Model of `ManagerEvents.once`: `super.once(eventName, listener)`. -/
def managerOnce (s : Emitter) (e : String) (l : Nat) : Emitter :=
  s.addOnce e l

/-- Model of `ManagerEvents.off` as written in the source: its body is
`super.once(eventName, listener)` — not `super.off`/`removeListener`. -/
def managerOff (s : Emitter) (e : String) (l : Nat) : Emitter :=
  s.addOnce e l

/-- Node `EventEmitter.prototype.removeListener`, the behaviour the
doc comment of `ManagerEvents.off` describes: remove one matching
registration of `l` for `e` (the most recently added one). -/
def emitterRemoveListener (s : Emitter) (e : String) (l : Nat) : Emitter :=
  { listeners :=
      (((s.listeners.reverse).eraseP
        (fun p => p.1 = e && p.2.1 = l)).reverse) }

/-! ## `TimeoutManager` (src/unnamed/part_001)

State: the armed in-memory timers (`timeouts : Collection`, here the
durable key together with the `TimeoutData` the timer callback
captured), the registered descriptor ids (`registeredTimeouts`; the
command body itself is irrelevant to the claims), and the contents of
the durable `timeout` table of the underlying `AoiManager` database
(the backends' event payloads are not tracked here).

Sequencing of the JS event plumbing, reflected below: `emit("timeout",
d)` runs the `handleTimeoutEvent` listener synchronously up to its
first `await`.  That synchronous prefix computes the durable key,
checks the guard `descriptor registered && this.timeouts.has(key)` and,
only when it passes, dispatches the command (`evaluateCommand`) —
suspending there.  The emitter then resumes the emit site, which
`await`s `removeTimeout`; the listener's trailing
`this.timeouts.delete(key)` runs after the command completes.  When the
guard fails the listener returns before any `await`, so nothing else of
it runs. -/

structure TData where
  id : String
  time : Int
  datestamp : Int
  outData : Val
deriving Repr, DecidableEq

/-- The composite durable key `"<id>_<datestamp>"`. -/
def durableKey (d : TData) : String :=
  d.id ++ "_" ++ toString d.datestamp

structure TM where
  timeouts : List (String × TData)
  registered : List String
  table : List (String × TData)
deriving Repr, DecidableEq

namespace TM

/-- Model of `TimeoutManager.registerTimeout`: `AoijsTypeError` when the id is
already registered, otherwise record the descriptor. -/
def registerTimeout (tm : TM) (i : String) : Except String TM :=
  if tm.registered.contains i then
    .error ("The current timeout " ++ i ++ " already exists")
  else
    .ok { tm with registered := tm.registered ++ [i] }

/-- Model of `TimeoutManager.addTimeout`: build the record with
`datestamp = now`, emit `addTimeout` (whose `handleAddTimeout` listener
synchronously arms the in-memory timer under the durable key), then
write the record to the `timeout` table; returns the durable key. -/
def addTimeout (tm : TM) (now : Int) (i : String) (time : Int)
    (outData : Val) : TM × String :=
  let d : TData := ⟨i, time, now, outData⟩
  let tm1 := { tm with timeouts := aset tm.timeouts (durableKey d) d }
  let tm2 := { tm1 with table := aset tm1.table (durableKey d) d }
  (tm2, durableKey d)

/-- Model of `TimeoutManager.removeTimeout`: when no in-memory timer exists for
the key, return `false` without touching anything; otherwise clear the
timer, drop it from the collection, delete the durable record, return
`true`. -/
def removeTimeout (tm : TM) (tid : String) : TM × Bool :=
  match alookup tm.timeouts tid with
  | none => (tm, false)
  | some _ =>
      ({ tm with
          timeouts := aerase tm.timeouts tid,
          table := aerase tm.table tid }, true)

/-- The guard at the head of `TimeoutManager.handleTimeoutEvent`: the
record's `id` has a registered descriptor *and* an in-memory timer is
armed under the record's durable key. -/
def fireGuard (tm : TM) (d : TData) : Bool :=
  tm.registered.contains d.id && (alookup tm.timeouts (durableKey d)).isSome

/-- The post-`await` suffix of `handleTimeoutEvent`
(`this.timeouts.delete(timeoutId)`), which runs only when the guard
passed and the command was dispatched. -/
def handleTimeoutFinish (tm : TM) (d : TData) (fired : Bool) : TM :=
  if fired then { tm with timeouts := aerase tm.timeouts (durableKey d) }
  else tm

/-- The `remainingTime ≤ 0` branch of
`TimeoutManager.restoreTimeouts`: `emit("timeout", value)` (listener
prefix: guard, dispatch when it passes) followed by
`await removeTimeout(timeoutId)`, followed by the listener suffix.
Returns the new state and the dispatched records. -/
def immediateFire (tm : TM) (d : TData) : TM × List TData :=
  let fired := tm.fireGuard d
  let disp := if fired then [d] else []
  let (tm1, _) := tm.removeTimeout (durableKey d)
  let tm2 := tm1.handleTimeoutFinish d fired
  (tm2, disp)

/-- Expiry of an armed in-memory timer `tid`: the callback registered
by `handleAddTimeout`/`restoreTimeouts` emits `timeout` with the record
it captured, then `await`s `removeTimeout(tid)`; the listener suffix
runs after the dispatched command completes. -/
def expireTimer (tm : TM) (tid : String) : TM × List TData :=
  match alookup tm.timeouts tid with
  | none => (tm, [])
  | some d =>
      let fired := tm.fireGuard d
      let disp := if fired then [d] else []
      let (tm1, _) := tm.removeTimeout tid
      let tm2 := tm1.handleTimeoutFinish d fired
      (tm2, disp)

/-- One entry of the `restoreTimeouts` loop: with `remaining =
datestamp + time − now`, either arm a fresh timer for `remaining` ms
(`remaining > 0`) or take the immediate-fire branch. -/
def restoreStep (now : Int) (acc : TM × List TData)
    (entry : String × TData) : TM × List TData :=
  let tm := acc.1
  let d := entry.2
  if d.datestamp + d.time - now > 0 then
    ({ tm with timeouts := aset tm.timeouts (durableKey d) d }, acc.2)
  else
    let (tm', disp) := tm.immediateFire d
    (tm', acc.2 ++ disp)

/-- Model of `TimeoutManager.restoreTimeouts`, run once on the backend's `ready`
signal: `findMany` snapshots every record of the `timeout` table whose
value is a non-null object (every `TData` qualifies), then the loop
processes each snapshot entry in order. -/
def restoreTimeouts (tm : TM) (now : Int) : TM × List TData :=
  tm.table.foldl (restoreStep now) (tm, [])

end TM

/-! ## Association-list lemmas -/

theorem alookup_aset_self {α : Type} (l : List (String × α)) (k : String)
    (v : α) : alookup (aset l k v) k = some v := by
  induction l with
  | nil => simp [aset, alookup]
  | cons p rest ih =>
      obtain ⟨k', v'⟩ := p
      by_cases h : k' = k
      · simp [aset, h, alookup]
      · simp [aset, h, alookup, ih]

theorem alookup_append_of_none {α : Type} (l1 l2 : List (String × α))
    (k : String) (h : alookup l1 k = none) :
    alookup (l1 ++ l2) k = alookup l2 k := by
  induction l1 with
  | nil => simp
  | cons p rest ih =>
      obtain ⟨k', v'⟩ := p
      by_cases hk : k' = k
      · simp [alookup, hk] at h
      · simp only [alookup, hk, if_neg, List.cons_append] at h ⊢
        simp [alookup, hk] at h ⊢
        exact ih h

theorem alookup_aerase_self {α : Type} (l : List (String × α))
    (k : String) : alookup (aerase l k) k = none := by
  induction l with
  | nil => simp [aerase, alookup]
  | cons p rest ih =>
      obtain ⟨k', v'⟩ := p
      by_cases h : k' = k
      · simp [aerase, h, ih]
      · simp [aerase, h, alookup, ih]

/-! ## Claims on the `TimeoutManager` -/

/-- Claim C7: when an in-memory timer is armed under a durable key,
`removeTimeout` on that key returns `true`, cancels the timer and
deletes the durable record; a second `removeTimeout` on the same key
returns `false` and changes no state. -/
theorem claim7_removeTimeout_idempotent (tm : TM) (tid : String)
    (h : (alookup tm.timeouts tid).isSome = true) :
    (tm.removeTimeout tid).2 = true ∧
    alookup (tm.removeTimeout tid).1.timeouts tid = none ∧
    alookup (tm.removeTimeout tid).1.table tid = none ∧
    (tm.removeTimeout tid).1.removeTimeout tid =
      ((tm.removeTimeout tid).1, false) := by
  obtain ⟨d, hd⟩ := Option.isSome_iff_exists.mp h
  simp [TM.removeTimeout, hd, alookup_aerase_self]

/-- Claim C7 witness: a manager with a timer armed under
`"ping_1000"` (the state `addTimeout("ping", ...)` leaves behind). -/
theorem claim7_witness :
    ((alookup (TM.mk [("ping_1000", ⟨"ping", 3000, 1000, Val.vnull⟩)]
        ["ping"] [("ping_1000", ⟨"ping", 3000, 1000, Val.vnull⟩)]).timeouts
        "ping_1000").isSome = true) ∧
    ((TM.mk [("ping_1000", ⟨"ping", 3000, 1000, Val.vnull⟩)]
        ["ping"] [("ping_1000", ⟨"ping", 3000, 1000, Val.vnull⟩)]).removeTimeout
        "ping_1000").2 = true ∧
    alookup ((TM.mk [("ping_1000", ⟨"ping", 3000, 1000, Val.vnull⟩)]
        ["ping"] [("ping_1000", ⟨"ping", 3000, 1000, Val.vnull⟩)]).removeTimeout
        "ping_1000").1.timeouts "ping_1000" = none ∧
    alookup ((TM.mk [("ping_1000", ⟨"ping", 3000, 1000, Val.vnull⟩)]
        ["ping"] [("ping_1000", ⟨"ping", 3000, 1000, Val.vnull⟩)]).removeTimeout
        "ping_1000").1.table "ping_1000" = none ∧
    ((TM.mk [("ping_1000", ⟨"ping", 3000, 1000, Val.vnull⟩)]
        ["ping"] [("ping_1000", ⟨"ping", 3000, 1000, Val.vnull⟩)]).removeTimeout
        "ping_1000").1.removeTimeout "ping_1000" =
      (((TM.mk [("ping_1000", ⟨"ping", 3000, 1000, Val.vnull⟩)]
        ["ping"] [("ping_1000", ⟨"ping", 3000, 1000, Val.vnull⟩)]).removeTimeout
        "ping_1000").1, false) :=
  ⟨by decide,
   claim7_removeTimeout_idempotent
     (TM.mk [("ping_1000", ⟨"ping", 3000, 1000, Val.vnull⟩)]
        ["ping"] [("ping_1000", ⟨"ping", 3000, 1000, Val.vnull⟩)])
     "ping_1000" (by decide)⟩

/-- Claim C1: at recovery, a durable record that is 2000 ms overdue
(`datestamp = 1000`, `time = 3000`, `now = 6000`) whose `id = "ping"`
has a registered descriptor is *not* dispatched: the immediate-fire
branch emits the `timeout` event, but `handleTimeoutEvent` returns at
its `!this.timeouts.has(timeoutId)` guard because the immediate branch
never armed an in-memory timer, so the registered action never runs. -/
theorem claim1_recovery_drops_overdue_record :
    ((TM.mk [] ["ping"]
        [("ping_1000",
          ⟨"ping", 3000, 1000, Val.vobjCons "x" (Val.vnum 1) Val.vobjEmpty⟩)]
      ).registered.contains "ping" = true) ∧
    ((1000 : Int) + 3000 - 6000 ≤ 0) ∧
    ((TM.mk [] ["ping"]
        [("ping_1000",
          ⟨"ping", 3000, 1000, Val.vobjCons "x" (Val.vnum 1) Val.vobjEmpty⟩)]
      ).restoreTimeouts 6000).2 = [] := by
  decide

/-- Claim C2: the expiry firing path does delete the durable record,
but the immediate-fire path during recovery does not: `removeTimeout`
finds no in-memory timer (the immediate branch never armed one) and
returns `false` before reaching the database delete, so the overdue
record survives recovery in the `timeout` table. -/
theorem claim2_immediate_fire_keeps_durable_record :
    (alookup ((TM.mk
        [("ping_1000",
          ⟨"ping", 3000, 1000, Val.vobjCons "x" (Val.vnum 1) Val.vobjEmpty⟩)]
        ["ping"]
        [("ping_1000",
          ⟨"ping", 3000, 1000, Val.vobjCons "x" (Val.vnum 1) Val.vobjEmpty⟩)]
      ).expireTimer "ping_1000").1.table "ping_1000" = none) ∧
    (alookup ((TM.mk [] ["ping"]
        [("ping_1000",
          ⟨"ping", 3000, 1000, Val.vobjCons "x" (Val.vnum 1) Val.vobjEmpty⟩)]
      ).restoreTimeouts 6000).1.table "ping_1000" =
      some ⟨"ping", 3000, 1000, Val.vobjCons "x" (Val.vnum 1) Val.vobjEmpty⟩) := by
  decide

/-! ## Claims on `ping` and the event manager -/

/-- Claim C9: on a connected store with declared table `"main"` whose
read takes 5 ms, `ping` of the file backend and of the MySQL backend
returns an elapsed time of `0`: the `forEach(async ...)` loop never
awaits the promises it creates, so the reads of the declared tables are
still pending when `ping` returns and do not complete within the
measured interval, contradicting the claimed "elapsed time taken to
read every declared table". -/
theorem claim9_ping_excludes_the_reads :
    SDB.storagePing
      (SDB.mk ["main"] true [("main", [("a", Val.vnum 1)])])
      (fun _ => 5) = (0, [("main", 5)]) ∧
    MDB.ping
      (MDB.mk ["main"] true [("main", [("a", Val.vnum 1)])])
      (fun _ => 5) = (0, [("main", 5)]) := by
  decide

/-- Claim C10: `ManagerEvents.off` is written as `super.once`, so it
coincides with `ManagerEvents.once` on every state, and a listener
subscribed with `on` and then passed to `off` is still invoked on the
next emission of the event rather than removed. -/
theorem claim10_off_registers_like_once (s : Emitter) (e : String)
    (l : Nat) :
    managerOff s e l = managerOnce s e l ∧
    l ∈ ((managerOff (managerOn s e l) e l).emit e).1 := by
  refine ⟨rfl, ?_⟩
  simp [managerOff, managerOn, Emitter.addOnce, Emitter.addPersistent,
    Emitter.emit, List.filterMap_append]

/-! ## Claims on the storage backends -/

/-- Claim C3 counterexample: on the MySQL backend, a table holding
`a ↦ 1, b ↦ 2` is cleared, but the single emitted `deleteAll` payload
is only `\x7btable\x7d` — it carries no snapshot of the removed
records, refuting the claim for this backend variant. -/
theorem claim3_counterexample :
    MDB.all (MDB.mk ["main"] true
        [("main", [("a", Val.vnum 1), ("b", Val.vnum 2)])]) "main" =
      .ok [("a", Val.vnum 1), ("b", Val.vnum 2)] ∧
    eventsOf (MDB.clear (MDB.mk ["main"] true
        [("main", [("a", Val.vnum 1), ("b", Val.vnum 2)])]) "main") =
      some [DBEvent.deleteAll "main" none] := by
  decide

/-- Claim C3 as amended: on every backend variant, `clear` of a
declared table leaves the table empty and emits exactly one
`deleteAll`; the file, Firebase and Mongo backends carry the snapshot
of everything removed in the payload, while the MySQL backend's payload
carries no snapshot. -/
theorem claim3_clear_amended (s : SDB) (ms : MDB) (fs : FDB) (mos : MoDB)
    (t : String)
    (hs1 : s.isReady = true) (hs2 : t ∈ s.tables)
    (hm1 : ms.isReady = true) (hm2 : t ∈ ms.tables)
    (hf1 : fs.isReady = true) (hf2 : t ∈ fs.tables)
    (ho1 : mos.isReady = true) (ho2 : t ∈ mos.tables) :
    (eventsOf (s.clear t) =
        some [DBEvent.deleteAll t (some ((alookup s.data t).getD []))] ∧
      (stateOf (s.clear t)).map (fun s' => s'.all t) = some (.ok [])) ∧
    (eventsOf (ms.clear t) = some [DBEvent.deleteAll t none] ∧
      (stateOf (ms.clear t)).map (fun s' => s'.all t) = some (.ok [])) ∧
    (eventsOf (fs.clear t) =
        some [DBEvent.deleteAll t (some (fs.tableDocs t))] ∧
      (stateOf (fs.clear t)).map (fun s' => s'.all t) = some (.ok [])) ∧
    (eventsOf (mos.clear t) =
        some [DBEvent.deleteAll t (some (mos.tableDocs t))] ∧
      (stateOf (mos.clear t)).map (fun s' => s'.all t) = some (.ok [])) := by
  refine ⟨⟨?_, ?_⟩, ⟨?_, ?_⟩, ⟨?_, ?_⟩, ⟨?_, ?_⟩⟩
  · simp [SDB.clear, SDB.all, SDB.getData, SDB.setData, hs1, hs2, eventsOf,
      Bind.bind, Except.bind, Functor.map, Except.map, Pure.pure, Except.pure]
  · simp [SDB.clear, SDB.all, SDB.getData, SDB.setData, hs1, hs2, stateOf,
      alookup_aset_self, Bind.bind, Except.bind, Functor.map, Except.map, Pure.pure, Except.pure]
  · simp [MDB.clear, MDB.checkTable, hm1, hm2, eventsOf,
      Bind.bind, Except.bind, Functor.map, Except.map, Pure.pure, Except.pure]
  · simp [MDB.clear, MDB.checkTable, MDB.all, MDB.tableRows, hm1, hm2,
      stateOf, alookup_aset_self, Bind.bind, Except.bind, Functor.map,
      Except.map, Pure.pure, Except.pure]
  · simp [FDB.clear, FDB.all, FDB.checkTable, hf1, hf2, eventsOf,
      Bind.bind, Except.bind, Functor.map, Except.map, Pure.pure, Except.pure]
  · simp [FDB.clear, FDB.all, FDB.checkTable, FDB.tableDocs, hf1, hf2,
      stateOf, alookup_aset_self, Bind.bind, Except.bind, Functor.map,
      Except.map, Pure.pure, Except.pure]
  · simp [MoDB.clear, MoDB.all, MoDB.checkTable, ho1, ho2, eventsOf,
      Bind.bind, Except.bind, Functor.map, Except.map, Pure.pure, Except.pure]
  · simp [MoDB.clear, MoDB.all, MoDB.checkTable, MoDB.tableDocs, ho1, ho2,
      stateOf, alookup_aset_self, Bind.bind, Except.bind, Functor.map,
      Except.map, Pure.pure, Except.pure]

/-- Claim C3 witness: the amended statement evaluated on concrete
connected stores whose table `"main"` holds `a ↦ 1, b ↦ 2`. -/
theorem claim3_witness :
    ((SDB.mk ["main"] true
        [("main", [("a", Val.vnum 1), ("b", Val.vnum 2)])]).isReady = true) ∧
    (eventsOf ((MDB.mk ["main"] true
        [("main", [("a", Val.vnum 1), ("b", Val.vnum 2)])]).clear "main") =
      some [DBEvent.deleteAll "main" none] ∧
      (stateOf ((MDB.mk ["main"] true
        [("main", [("a", Val.vnum 1), ("b", Val.vnum 2)])]).clear "main")).map
          (fun s' => s'.all "main") = some (.ok [])) ∧
    (eventsOf ((SDB.mk ["main"] true
        [("main", [("a", Val.vnum 1), ("b", Val.vnum 2)])]).clear "main") =
      some [DBEvent.deleteAll "main"
        (some [("a", Val.vnum 1), ("b", Val.vnum 2)])] ∧
      (stateOf ((SDB.mk ["main"] true
        [("main", [("a", Val.vnum 1), ("b", Val.vnum 2)])]).clear "main")).map
          (fun s' => s'.all "main") = some (.ok [])) := by
  have h := claim3_clear_amended
    (SDB.mk ["main"] true [("main", [("a", Val.vnum 1), ("b", Val.vnum 2)])])
    (MDB.mk ["main"] true [("main", [("a", Val.vnum 1), ("b", Val.vnum 2)])])
    (FDB.mk ["main"] true [("main", [("a", Val.vnum 1), ("b", Val.vnum 2)])])
    (MoDB.mk ["main"] true [("main", [("a", Val.vnum 1), ("b", Val.vnum 2)])])
    "main" (by decide) (by decide) (by decide) (by decide) (by decide)
    (by decide) (by decide) (by decide)
  exact ⟨by decide, h.2.1, by decide⟩

/-- Claim C4 counterexample: on the file backend, `delete` of a key
absent from a declared table of a connected store throws a `TypeError`
(`data[key].value` on `undefined`) instead of emitting a `Delete`
event, refuting the claim for absent keys. -/
theorem claim4_counterexample :
    SDB.deleteOne (SDB.mk ["main"] true [("main", [])]) "main" "k" =
      .error .typeError := by
  decide

/-- Claim C4 as amended: for a key *present* in a declared table,
`delete` emits exactly one `Delete` carrying the value that existed
before removal and `has` is false afterwards (file and MySQL backends
alike); for an absent key the MySQL backend emits one `Delete` whose
payload value is `undefined` and `has` stays false, while the file
backend throws a `TypeError` and emits nothing. -/
theorem claim4_delete_amended
    (s : SDB) (t1 k1 : String) (v1 : Val)
    (hs1 : s.isReady = true) (hs2 : t1 ∈ s.tables)
    (hs3 : alookup ((alookup s.data t1).getD []) k1 = some v1)
    (s2 : SDB) (t2 k2 : String)
    (h2a : s2.isReady = true) (h2b : t2 ∈ s2.tables)
    (h2c : alookup ((alookup s2.data t2).getD []) k2 = none)
    (ms : MDB) (t3 k3 : String) (v3 : Val)
    (hm1 : ms.isReady = true) (hm2 : t3 ∈ ms.tables)
    (hm3 : alookup (ms.tableRows t3) k3 = some v3)
    (ms2 : MDB) (t4 k4 : String)
    (hn1 : ms2.isReady = true) (hn2 : t4 ∈ ms2.tables)
    (hn3 : alookup (ms2.tableRows t4) k4 = none) :
    (eventsOf (s.deleteOne t1 k1) = some [DBEvent.del t1 k1 (some v1)] ∧
      (stateOf (s.deleteOne t1 k1)).map (fun s' => s'.hasKey t1 k1) =
        some (.ok false)) ∧
    (s2.deleteOne t2 k2 = .error .typeError) ∧
    (eventsOf (ms.deleteOne t3 k3) = some [DBEvent.del t3 k3 (some v3)] ∧
      (stateOf (ms.deleteOne t3 k3)).map (fun s' => s'.hasKey t3 k3) =
        some (.ok false)) ∧
    (eventsOf (ms2.deleteOne t4 k4) = some [DBEvent.del t4 k4 none] ∧
      (stateOf (ms2.deleteOne t4 k4)).map (fun s' => s'.hasKey t4 k4) =
        some (.ok false)) := by
  refine ⟨⟨?_, ?_⟩, ?_, ⟨?_, ?_⟩, ⟨?_, ?_⟩⟩
  · simp [SDB.deleteOne, SDB.getData, SDB.setData, hs1, hs2, hs3, eventsOf,
      Bind.bind, Except.bind, Functor.map, Except.map, Pure.pure, Except.pure]
  · simp [SDB.deleteOne, SDB.getData, SDB.setData, SDB.hasKey, hs1, hs2, hs3,
      stateOf, alookup_aset_self, alookup_aerase_self,
      Bind.bind, Except.bind, Functor.map, Except.map, Pure.pure, Except.pure]
  · simp [SDB.deleteOne, SDB.getData, SDB.setData, h2a, h2b, h2c,
      Bind.bind, Except.bind, Functor.map, Except.map, Pure.pure, Except.pure]
  · simp [MDB.deleteOne, MDB.checkTable, MDB.get, hm1, hm2, hm3, eventsOf,
      Bind.bind, Except.bind, Functor.map, Except.map, Pure.pure, Except.pure]
  · simp [MDB.deleteOne, MDB.checkTable, MDB.get, MDB.hasKey, MDB.tableRows,
      hm1, hm2, hm3, stateOf, alookup_aset_self, alookup_aerase_self,
      Bind.bind, Except.bind, Functor.map, Except.map, Pure.pure, Except.pure]
  · simp [MDB.deleteOne, MDB.checkTable, MDB.get, hn1, hn2, hn3, eventsOf,
      Bind.bind, Except.bind, Functor.map, Except.map, Pure.pure, Except.pure]
  · simp [MDB.deleteOne, MDB.checkTable, MDB.get, MDB.hasKey, MDB.tableRows,
      hn1, hn2, hn3, stateOf, alookup_aset_self, alookup_aerase_self,
      Bind.bind, Except.bind, Functor.map, Except.map, Pure.pure, Except.pure]

/-- Claim C4 witness: present key `"a" ↦ 1` deleted from the file and
MySQL backends, absent key `"zz"` deleted from both. -/
theorem claim4_witness :
    (eventsOf (SDB.deleteOne
        (SDB.mk ["main"] true [("main", [("a", Val.vnum 1)])]) "main" "a") =
      some [DBEvent.del "main" "a" (some (Val.vnum 1))]) ∧
    (SDB.deleteOne (SDB.mk ["main"] true [("main", [("a", Val.vnum 1)])])
        "main" "zz" = .error .typeError) ∧
    (eventsOf (MDB.deleteOne
        (MDB.mk ["main"] true [("main", [("a", Val.vnum 1)])]) "main" "zz") =
      some [DBEvent.del "main" "zz" none]) :=
  have h := claim4_delete_amended
    (SDB.mk ["main"] true [("main", [("a", Val.vnum 1)])]) "main" "a"
    (Val.vnum 1) rfl (by decide) (by decide)
    (SDB.mk ["main"] true [("main", [("a", Val.vnum 1)])]) "main" "zz"
    rfl (by decide) (by decide)
    (MDB.mk ["main"] true [("main", [("a", Val.vnum 1)])]) "main" "a"
    (Val.vnum 1) rfl (by decide) (by decide)
    (MDB.mk ["main"] true [("main", [("a", Val.vnum 1)])]) "main" "zz"
    rfl (by decide) (by decide)
  ⟨h.1.1, h.2.1, h.2.2.2.1⟩

/-- Claim C5: on a connected store with a declared table and a key
absent from it, `set` emits exactly one `Create` (and in particular no
`Update`) with `data = v`, and a subsequent `get` returns `v`; proved
for the file backend and for the MySQL backend. -/
theorem claim5_fresh_set_creates (s : SDB) (ms : MDB) (t k : String)
    (v : Val)
    (hs1 : s.isReady = true) (hs2 : t ∈ s.tables)
    (hs3 : alookup ((alookup s.data t).getD []) k = none)
    (hm1 : ms.isReady = true) (hm2 : t ∈ ms.tables)
    (hm3 : alookup (ms.tableRows t) k = none) :
    (eventsOf (s.set t k v) = some [DBEvent.create t k v] ∧
      (stateOf (s.set t k v)).map (fun s' => s'.get t k) =
        some (.ok (some v))) ∧
    (eventsOf (ms.set t k v) = some [DBEvent.create t k v] ∧
      (stateOf (ms.set t k v)).map (fun s' => s'.get t k) =
        some (.ok (some v))) := by
  refine ⟨⟨?_, ?_⟩, ⟨?_, ?_⟩⟩
  · simp [SDB.set, SDB.getData, SDB.setData, hs1, hs2, hs3, eventsOf,
      Bind.bind, Except.bind, Functor.map, Except.map, Pure.pure, Except.pure]
  · simp [SDB.set, SDB.getData, SDB.setData, SDB.get, hs1, hs2, hs3, stateOf,
      alookup_aset_self,
      Bind.bind, Except.bind, Functor.map, Except.map, Pure.pure, Except.pure]
  · simp [MDB.set, MDB.checkTable, MDB.get, hm1, hm2, hm3, eventsOf,
      Bind.bind, Except.bind, Functor.map, Except.map, Pure.pure, Except.pure]
  · simp only [MDB.set, MDB.checkTable, MDB.get, MDB.tableRows, hm1, hm2,
      hm3, stateOf, alookup_aset_self,
      Bind.bind, Except.bind, Functor.map, Except.map, Pure.pure, Except.pure]
    simp [hm2, hm3, alookup_aset_self, stateOf, MDB.tableRows,
      alookup_append_of_none ((alookup ms.rows t).getD []) [(k, v)] k
        (by simpa [MDB.tableRows] using hm3), alookup]

/-- Claim C5 witness: fresh key `"k"` set to `1` on concrete connected
stores. -/
theorem claim5_witness :
    (eventsOf (SDB.set (SDB.mk ["main"] true [("main", [])]) "main" "k"
        (Val.vnum 1)) = some [DBEvent.create "main" "k" (Val.vnum 1)]) ∧
    ((stateOf (MDB.set (MDB.mk ["main"] true [("main", [])]) "main" "k"
        (Val.vnum 1))).map (fun s' => s'.get "main" "k") =
      some (.ok (some (Val.vnum 1)))) :=
  have h := claim5_fresh_set_creates
    (SDB.mk ["main"] true [("main", [])])
    (MDB.mk ["main"] true [("main", [])]) "main" "k" (Val.vnum 1)
    rfl (by decide) (by decide) rfl (by decide) (by decide)
  ⟨h.1.1, h.2.2⟩

/-- Claim C6 counterexample: on every backend variant, overwriting the
existing value `1` with the string `"1"` — a value that differs from it
(and is not deep-structurally-equal to it) — emits *no* event, because
`deepEqualTry` wraps Node's loose `assert.deepEqual`, whose `==` on
primitives accepts `1 == "1"`.  This refutes "emits exactly one Update
event ... when v2 differs from v1". -/
theorem claim6_counterexample :
    (Val.vstr "1" ≠ Val.vnum 1) ∧
    (eventsOf (SDB.set (SDB.mk ["main"] true [("main", [("a", Val.vnum 1)])])
        "main" "a" (Val.vstr "1")) = some []) ∧
    (eventsOf (MDB.set (MDB.mk ["main"] true [("main", [("a", Val.vnum 1)])])
        "main" "a" (Val.vstr "1")) = some []) ∧
    (eventsOf (FDB.set (FDB.mk ["main"] true [("main", [("a", Val.vnum 1)])])
        "main" "a" (Val.vstr "1")) = some []) ∧
    (eventsOf (MoDB.set (MoDB.mk ["main"] true [("main", [("a", Val.vnum 1)])])
        "main" "a" (Val.vstr "1")) = some []) := by
  decide

/-- Claim C6 as amended: on every backend variant, `set` of `v2` over
an existing value `v1` emits no event when `v2` is loosely deep-equal
to `v1` in the sense of Node's `assert.deepEqual` — which accepts
structurally different pairs such as `1` and `"1"` — and emits exactly
one `Update` with `newData = v2`, `oldData = v1` when it is not; this
suppression behaviour holds uniformly across the file, MySQL, Firebase
and Mongo backends. -/
theorem claim6_loose_update_suppression
    (s : SDB) (ms : MDB) (fs : FDB) (mos : MoDB) (t k : String)
    (v1 v2 : Val)
    (hs1 : s.isReady = true) (hs2 : t ∈ s.tables)
    (hs3 : alookup ((alookup s.data t).getD []) k = some v1)
    (hm1 : ms.isReady = true) (hm2 : t ∈ ms.tables)
    (hm3 : alookup (ms.tableRows t) k = some v1)
    (hf1 : fs.isReady = true) (hf2 : t ∈ fs.tables)
    (hf3 : alookup (fs.tableDocs t) k = some v1)
    (ho1 : mos.isReady = true) (ho2 : t ∈ mos.tables)
    (ho3 : alookup (mos.tableDocs t) k = some v1) :
    (eventsOf (s.set t k v2) =
        some (if deepEqualTry v2 v1 then []
          else [DBEvent.update t k v2 v1])) ∧
    (eventsOf (ms.set t k v2) =
        some (if deepEqualTry v2 v1 then []
          else [DBEvent.update t k v2 v1])) ∧
    (eventsOf (fs.set t k v2) =
        some (if deepEqualTry v2 v1 then []
          else [DBEvent.update t k v2 v1])) ∧
    (eventsOf (mos.set t k v2) =
        some (if deepEqualTry v2 v1 then []
          else [DBEvent.update t k v2 v1])) := by
  refine ⟨?_, ?_, ?_, ?_⟩
  · by_cases hv : deepEqualTry v2 v1 <;>
      simp [SDB.set, SDB.getData, SDB.setData, hs1, hs2, hs3, eventsOf, hv,
        Bind.bind, Except.bind, Functor.map, Except.map, Pure.pure,
        Except.pure]
  · by_cases hv : deepEqualTry v2 v1 <;>
      simp [MDB.set, MDB.checkTable, MDB.get, hm1, hm2, hm3, eventsOf, hv,
        Bind.bind, Except.bind, Functor.map, Except.map, Pure.pure,
        Except.pure]
  · by_cases hv : deepEqualTry v2 v1 <;>
      simp [FDB.set, FDB.checkTable, FDB.get, FDB.hasKey, hf1, hf2, hf3,
        eventsOf, hv,
        Bind.bind, Except.bind, Functor.map, Except.map, Pure.pure,
        Except.pure]
  · by_cases hv : deepEqualTry v2 v1 <;>
      simp [MoDB.set, MoDB.checkTable, MoDB.get, ho1, ho2, ho3, eventsOf, hv,
        Bind.bind, Except.bind, Functor.map, Except.map, Pure.pure,
        Except.pure]

/-- Claim C6 witness: overwriting `"a" ↦ 1` with the loosely-equal
string `"1"` takes the suppression branch on the file backend, and
overwriting it with the not-loosely-equal `2` takes the `Update` branch
on the Mongo backend. -/
theorem claim6_witness :
    (eventsOf (SDB.set (SDB.mk ["main"] true [("main", [("a", Val.vnum 1)])])
        "main" "a" (Val.vstr "1")) = some []) ∧
    (eventsOf (MoDB.set (MoDB.mk ["main"] true [("main", [("a", Val.vnum 1)])])
        "main" "a" (Val.vnum 2)) =
      some [DBEvent.update "main" "a" (Val.vnum 2) (Val.vnum 1)]) :=
  have h1 := claim6_loose_update_suppression
    (SDB.mk ["main"] true [("main", [("a", Val.vnum 1)])])
    (MDB.mk ["main"] true [("main", [("a", Val.vnum 1)])])
    (FDB.mk ["main"] true [("main", [("a", Val.vnum 1)])])
    (MoDB.mk ["main"] true [("main", [("a", Val.vnum 1)])])
    "main" "a" (Val.vnum 1) (Val.vstr "1")
    rfl (by decide) (by decide) rfl (by decide) (by decide)
    rfl (by decide) (by decide) rfl (by decide) (by decide)
  have h2 := claim6_loose_update_suppression
    (SDB.mk ["main"] true [("main", [("a", Val.vnum 1)])])
    (MDB.mk ["main"] true [("main", [("a", Val.vnum 1)])])
    (FDB.mk ["main"] true [("main", [("a", Val.vnum 1)])])
    (MoDB.mk ["main"] true [("main", [("a", Val.vnum 1)])])
    "main" "a" (Val.vnum 1) (Val.vnum 2)
    rfl (by decide) (by decide) rfl (by decide) (by decide)
    rfl (by decide) (by decide) rfl (by decide) (by decide)
  ⟨by
      have hd : deepEqualTry (Val.vstr "1") (Val.vnum 1) = true := by decide
      simpa [hd] using h1.1,
   by
      have hd : deepEqualTry (Val.vnum 2) (Val.vnum 1) = false := by decide
      simpa [hd] using h2.2.2.2⟩

/-- Claim C8 counterexample: on the file backend, `set` of a fresh key
emits the `Create` event *before* the write: the state paired with the
event (the one a synchronous listener observes) is the pre-write store,
in which `get` still returns `undefined` rather than the new value. -/
theorem claim8_counterexample :
    SDB.set (SDB.mk ["main"] true []) "main" "k" (Val.vnum 1) =
      .ok (SDB.mk ["main"] true [("main", [("k", Val.vnum 1)])],
        [(DBEvent.create "main" "k" (Val.vnum 1), SDB.mk ["main"] true [])]) ∧
    SDB.get (SDB.mk ["main"] true []) "main" "k" = .ok none := by
  decide

/-- Claim C8 as amended: in every cited backend (`StorageDB`,
`MySqlDB`, `FirebaseDB`) the Create/Update event of `set` is emitted
*before* the write to storage, so a synchronous listener observes the
pre-write table: for a fresh key it does not yet contain the key, and
for an overwrite with a value not loosely-deep-equal to the old one
(the only overwrite that emits at all) it still holds the old value. -/
theorem claim8_events_before_write
    (s : SDB) (ms : MDB) (fs : FDB) (t k : String) (v : Val)
    (hs1 : s.isReady = true) (hs2 : t ∈ s.tables)
    (hs3 : alookup ((alookup s.data t).getD []) k = none)
    (hm1 : ms.isReady = true) (hm2 : t ∈ ms.tables)
    (hm3 : alookup (ms.tableRows t) k = none)
    (hf1 : fs.isReady = true) (hf2 : t ∈ fs.tables)
    (hf3 : alookup (fs.tableDocs t) k = none)
    (s2 : SDB) (ms2 : MDB) (fs2 : FDB) (t2 k2 : String) (v1 v2 : Val)
    (h2a : s2.isReady = true) (h2b : t2 ∈ s2.tables)
    (h2c : alookup ((alookup s2.data t2).getD []) k2 = some v1)
    (h2d : ms2.isReady = true) (h2e : t2 ∈ ms2.tables)
    (h2f : alookup (ms2.tableRows t2) k2 = some v1)
    (h2g : fs2.isReady = true) (h2h : t2 ∈ fs2.tables)
    (h2i : alookup (fs2.tableDocs t2) k2 = some v1)
    (hne : deepEqualTry v2 v1 = false) :
    (snapshotsOf (s.set t k v) = some [s] ∧ s.get t k = .ok none) ∧
    (snapshotsOf (ms.set t k v) = some [ms] ∧ ms.get t k = .ok none) ∧
    (snapshotsOf (fs.set t k v) = some [fs] ∧ fs.get t k = .ok none) ∧
    (snapshotsOf (s2.set t2 k2 v2) = some [s2] ∧
      s2.get t2 k2 = .ok (some v1)) ∧
    (snapshotsOf (ms2.set t2 k2 v2) = some [ms2] ∧
      ms2.get t2 k2 = .ok (some v1)) ∧
    (snapshotsOf (fs2.set t2 k2 v2) = some [fs2] ∧
      fs2.get t2 k2 = .ok (some v1)) := by
  refine ⟨⟨?_, ?_⟩, ⟨?_, ?_⟩, ⟨?_, ?_⟩, ⟨?_, ?_⟩, ⟨?_, ?_⟩, ⟨?_, ?_⟩⟩
  · simp [SDB.set, SDB.getData, SDB.setData, hs1, hs2, hs3, snapshotsOf,
      Bind.bind, Except.bind, Functor.map, Except.map, Pure.pure, Except.pure]
  · simp [SDB.get, SDB.getData, hs1, hs2, hs3,
      Bind.bind, Except.bind, Functor.map, Except.map, Pure.pure, Except.pure]
  · simp [MDB.set, MDB.checkTable, MDB.get, hm1, hm2, hm3, snapshotsOf,
      Bind.bind, Except.bind, Functor.map, Except.map, Pure.pure, Except.pure]
  · simp [MDB.get, MDB.checkTable, hm1, hm2, hm3,
      Bind.bind, Except.bind, Functor.map, Except.map, Pure.pure, Except.pure]
  · simp [FDB.set, FDB.checkTable, FDB.get, FDB.hasKey, hf1, hf2, hf3,
      snapshotsOf,
      Bind.bind, Except.bind, Functor.map, Except.map, Pure.pure, Except.pure]
  · simp [FDB.get, FDB.checkTable, hf1, hf2, hf3,
      Bind.bind, Except.bind, Functor.map, Except.map, Pure.pure, Except.pure]
  · simp [SDB.set, SDB.getData, SDB.setData, h2a, h2b, h2c, snapshotsOf,
      hne,
      Bind.bind, Except.bind, Functor.map, Except.map, Pure.pure, Except.pure]
  · simp [SDB.get, SDB.getData, h2a, h2b, h2c,
      Bind.bind, Except.bind, Functor.map, Except.map, Pure.pure, Except.pure]
  · simp [MDB.set, MDB.checkTable, MDB.get, h2d, h2e, h2f, snapshotsOf,
      hne,
      Bind.bind, Except.bind, Functor.map, Except.map, Pure.pure, Except.pure]
  · simp [MDB.get, MDB.checkTable, h2d, h2e, h2f,
      Bind.bind, Except.bind, Functor.map, Except.map, Pure.pure, Except.pure]
  · simp [FDB.set, FDB.checkTable, FDB.get, FDB.hasKey, h2g, h2h, h2i,
      snapshotsOf, hne,
      Bind.bind, Except.bind, Functor.map, Except.map, Pure.pure, Except.pure]
  · simp [FDB.get, FDB.checkTable, h2g, h2h, h2i,
      Bind.bind, Except.bind, Functor.map, Except.map, Pure.pure, Except.pure]

/-- Claim C8 witness: fresh key `"k"` on connected file, MySQL and
Firebase stores, and overwrite of `"a" ↦ 1` with the not-loosely-equal
`2` on all three. -/
theorem claim8_witness :
    (snapshotsOf (SDB.set (SDB.mk ["main"] true []) "main" "k"
        (Val.vnum 1)) = some [SDB.mk ["main"] true []]) ∧
    (snapshotsOf (FDB.set (FDB.mk ["main"] true []) "main" "k"
        (Val.vnum 1)) = some [FDB.mk ["main"] true []]) ∧
    (snapshotsOf (SDB.set (SDB.mk ["main"] true
        [("main", [("a", Val.vnum 1)])]) "main" "a" (Val.vnum 2)) =
      some [SDB.mk ["main"] true [("main", [("a", Val.vnum 1)])]]) ∧
    (snapshotsOf (MDB.set (MDB.mk ["main"] true
        [("main", [("a", Val.vnum 1)])]) "main" "a" (Val.vnum 2)) =
      some [MDB.mk ["main"] true [("main", [("a", Val.vnum 1)])]]) ∧
    (snapshotsOf (FDB.set (FDB.mk ["main"] true
        [("main", [("a", Val.vnum 1)])]) "main" "a" (Val.vnum 2)) =
      some [FDB.mk ["main"] true [("main", [("a", Val.vnum 1)])]]) :=
  have h := claim8_events_before_write
    (SDB.mk ["main"] true []) (MDB.mk ["main"] true [])
    (FDB.mk ["main"] true []) "main" "k" (Val.vnum 1)
    rfl (by decide) (by decide) rfl (by decide) (by decide)
    rfl (by decide) (by decide)
    (SDB.mk ["main"] true [("main", [("a", Val.vnum 1)])])
    (MDB.mk ["main"] true [("main", [("a", Val.vnum 1)])])
    (FDB.mk ["main"] true [("main", [("a", Val.vnum 1)])]) "main" "a"
    (Val.vnum 1) (Val.vnum 2)
    rfl (by decide) (by decide) rfl (by decide) (by decide)
    rfl (by decide) (by decide) (by decide)
  ⟨h.1.1, h.2.2.1.1, h.2.2.2.1.1, h.2.2.2.2.1.1, h.2.2.2.2.2.1⟩

end AoiDB
